import Mathlib

/-!
# one-hub, package `stmp` (`common/stmp/email.go`)

A shallow embedding of the e-mail dispatcher: `NewStmp`, `StmpConfig.Send`,
`StmpConfig.getReferences`, `StmpConfig.Render`, `GetSystemStmp` and the three
high-level senders, followed by the properties established about them.

Conventions of the embedding

* Go `string` values are Lean `String`s (valid UTF-8 text).  The only byte-level
  operation of the package, `strings.Split(_, "@")`, cuts at an ASCII byte, which
  never occurs inside a multi-byte sequence, so cutting at the character `@`
  is the same operation.
* Go `int` values are `Int`; the package performs no arithmetic on them.
* A Go function returning `error` that may also panic returns an `Outcome`.
* The effects of `Send` (one call of `Dialer.DialAndSend`) are made explicit:
  every function that can reach the transport returns the list of transport
  calls it made next to its outcome.
* What the package reads from other packages (`config.*`,
  `common.VerificationValidMinutes`, `utils.GetUUID`, `getDefaultTemplate`,
  the behaviour of the SMTP server) is collected in an `Env` value.
-/

set_option autoImplicit false

namespace Stmp

/-! ## Go values: errors, formatting, `strings.Split` -/

/-- Go `error` values as the package sees them: an error has a message
(`Error()`) and possibly a wrapped cause (`Unwrap()`).  `errorString` is what
`fmt.Errorf` builds for a format without `%w` (any error without a cause is of
this shape), `wrapError` what it builds for a format with one `%w`. -/
inductive GoError where
  | errorString (s : String)
  | wrapError (msg : String) (err : GoError)
  deriving DecidableEq, Repr

/-- The method `Error()`. -/
def GoError.Error : GoError → String
  | .errorString s => s
  | .wrapError msg _ => msg

/-- The method `Unwrap()` (absent, hence no cause, on an `errorString`). -/
def GoError.Unwrap : GoError → Option GoError
  | .errorString _ => none
  | .wrapError _ err => some err

/-- An operand of a formatting call. -/
inductive Arg where
  | str (s : String)
  | int (n : Int)
  | err (e : GoError)
  deriving DecidableEq, Repr

/-- Decimal rendering of a Go `int`, as the verb `%d` prints it. -/
def formatInt : Int → String
  | .ofNat n => Nat.repr n
  | .negSucc n => "-" ++ Nat.repr (n + 1)

/-- Output of one verb applied to one operand, for the verbs the package uses:
`%s` on a string or an error, `%d` on an int, and `%w` on an error inside
`fmt.Errorf` (`wrapErrs`), which prints like `%v`, i.e. `Error()`.
`none`: the combination is not one the package uses. -/
def printArg (wrapErrs : Bool) (verb : Char) : Arg → Option (List Char)
  | .str s => if verb = 's' then some s.data else none
  | .int n => if verb = 'd' then some (formatInt n).data else none
  | .err e =>
    if verb = 's' then some e.Error.data
    else if verb = 'w' ∧ wrapErrs = true then some e.Error.data
    else none

/-- The formatting loop of package `fmt` (`(*pp).doPrintf`) on the fragment the
package uses: ordinary characters are copied, `%%` prints a percent sign, and
each other verb consumes the next operand.  The flag `afterPercent` records that
the previous character was the `%` opening a verb.  `none`: the call is outside
that fragment (a verb at the end of the format, a missing or surplus operand,
a verb/operand pair `printArg` does not cover), where Go prints a `%!` diagnostic. -/
def doPrintf (wrapErrs : Bool) : Bool → List Char → List Arg → Option (List Char)
  | false, [], [] => some []
  | false, [], _ :: _ => none
  | true, [], _ => none
  | false, c :: cs, a =>
    if c = '%' then doPrintf wrapErrs true cs a
    else (doPrintf wrapErrs false cs a).map (fun out => c :: out)
  | true, v :: cs, a =>
    if v = '%' then (doPrintf wrapErrs false cs a).map (fun out => '%' :: out)
    else
      match a with
      | [] => none
      | x :: xs =>
        match printArg wrapErrs v x with
        | none => none
        | some o => (doPrintf wrapErrs false cs xs).map (fun out => o ++ out)

/-- The operands consumed by a `%w` verb, in order (`(*pp).wrappedErrs`). -/
def wrappedErrs : Bool → List Char → List Arg → List GoError
  | _, [], _ => []
  | false, c :: cs, a => if c = '%' then wrappedErrs true cs a else wrappedErrs false cs a
  | true, v :: cs, a =>
    if v = '%' then wrappedErrs false cs a
    else
      match a with
      | [] => []
      | .err e :: xs => if v = 'w' then e :: wrappedErrs false cs xs else wrappedErrs false cs xs
      | _ :: xs => wrappedErrs false cs xs

/-- The function `fmt.Sprintf`.  Every call of the package is inside the fragment
embedded by `doPrintf`; outside it the embedding yields the empty string. -/
def Sprintf (format : String) (a : List Arg) : String :=
  match doPrintf false false format.data a with
  | some out => String.mk out
  | none => ""

/-- The function `fmt.Errorf`: the message is formatted as by `Sprintf` with `%w`
enabled; with no `%w` operand the result is a plain error, otherwise it wraps
the operand of `%w` (the package never uses more than one `%w`). -/
def Errorf (format : String) (a : List Arg) : GoError :=
  let msg :=
    match doPrintf true false format.data a with
    | some out => String.mk out
    | none => ""
  match wrappedErrs false format.data a with
  | [] => .errorString msg
  | e :: _ => .wrapError msg e

namespace strings

/-- Cutting a character sequence at every occurrence of `sep`: the pieces
between the occurrences, in order; always at least one piece. -/
def splitChars (sep : Char) : List Char → List (List Char)
  | [] => [[]]
  | c :: cs =>
    if c = sep then [] :: splitChars sep cs
    else
      match splitChars sep cs with
      | [] => [[c]]
      | piece :: pieces => (c :: piece) :: pieces

/-- The function `strings.Split(s, sep)` for a one-character separator, the only
way the package calls it (`strings.Split(s.From, "@")`). -/
def Split (s : String) (sep : Char) : List String :=
  (splitChars sep s.data).map String.mk

end strings

/-- A run-time panic of the Go program; the package can raise only
`index out of range [index] with length length`. -/
inductive Panic where
  | indexOutOfRange (index length : Nat)
  deriving DecidableEq, Repr

/-- The index expression `xs[i]` on a slice, with Go's bounds check. -/
def index (xs : List String) (i : Nat) : Except Panic String :=
  match xs[i]? with
  | some x => .ok x
  | none => .error (.indexOutOfRange i xs.length)

/-- How a call of a function with result type `error` ends: it returns (`nil`
is `none`) or it panics. -/
inductive Outcome where
  | returned (err : Option GoError)
  | panicked (p : Panic)
  deriving DecidableEq, Repr

/-! ## The mail library (`gopkg.in/gomail.v2`) as far as the package uses it -/

/-- The type `*tls.Config`; the package only ever stores `nil`. -/
structure TLSConfig where
  ServerName : String
  deriving DecidableEq, Repr

/-- The fields of `gomail.Dialer` the package sets. -/
structure Dialer where
  Host : String
  Port : Int
  Username : String
  Password : String
  SSL : Bool
  TLSConfig : Option TLSConfig
  deriving DecidableEq, Repr

/-- The constructor `gomail.NewDialer` of the library: it copies its arguments and
presets `SSL` to `port == 465`; `TLSConfig` is left `nil`. -/
def NewDialer (host : String) (port : Int) (username password : String) : Dialer :=
  { Host := host, Port := port, Username := username, Password := password,
    SSL := decide (port = 465), TLSConfig := none }

namespace mime

/-- The function `needsEncoding` of Go's package `mime`: some character of `s` is
neither printable ASCII (`' '` to `'~'`) nor a tab. -/
def needsEncoding (s : String) : Bool :=
  s.data.any (fun c => (c.toNat < 32 || c.toNat > 126) && c != '\t')

/-- The UTF-8 bytes of a character, i.e. the bytes of a Go string at that character. -/
def utf8Bytes (c : Char) : List Nat :=
  let n := c.toNat
  if n < 0x80 then [n]
  else if n < 0x800 then [0xC0 + n / 0x40, 0x80 + n % 0x40]
  else if n < 0x10000 then [0xE0 + n / 0x1000, 0x80 + n / 0x40 % 0x40, 0x80 + n % 0x40]
  else [0xF0 + n / 0x40000, 0x80 + n / 0x1000 % 0x40, 0x80 + n / 0x40 % 0x40, 0x80 + n % 0x40]

/-- The table `upperhex`. -/
def upperhex (n : Nat) : Char :=
  "0123456789ABCDEF".data.getD n '0'

/-- The bytes `writeQString` escapes: each becomes `=` and two upper-case hex digits. -/
def escapeBytes : List Nat → List Char
  | [] => []
  | b :: bs => '=' :: upperhex (b / 16) :: upperhex (b % 16) :: escapeBytes bs

/-- The test of `qEncode` for a byte that is written as one byte: printable ASCII
other than `=`, `?` and `_`. -/
def isPlain (c : Char) : Bool :=
  32 ≤ c.toNat && c.toNat ≤ 126 && c != '=' && c != '?' && c != '_'

/-- The function `writeQString` on the bytes of one character: a space becomes
`_`, a plain byte is copied, every other byte is escaped. -/
def writeQString (c : Char) : List Char :=
  if c = ' ' then ['_']
  else if isPlain c then [c]
  else escapeBytes (utf8Bytes c)

/-- The constant `maxContentLen`: `maxEncodedWordLen - len("=?UTF-8?q?") - len("?=")`. -/
def maxContentLen : Nat :=
  75 - 10 - 2

/-- The loop of `WordEncoder.qEncode` for the charset UTF-8, character by
character: `currentLen` is the encoded length of the current word; a character
that would exceed `maxContentLen` starts a new encoded word (`splitWord`). -/
def qEncode (currentLen : Nat) : List Char → List Char
  | [] => []
  | c :: cs =>
    let encLen := if isPlain c then 1 else 3 * (utf8Bytes c).length
    if currentLen + encLen > maxContentLen then
      "?= =?UTF-8?q?".data ++ (writeQString c ++ qEncode encLen cs)
    else writeQString c ++ qEncode (currentLen + encLen) cs

/-- The call `mime.QEncoding.Encode("UTF-8", s)`: `s` itself unless it needs
encoding, else the RFC 2047 encoded word(s) `=?UTF-8?q?...?=`. -/
def QEncode (s : String) : String :=
  if needsEncoding s then String.mk ("=?UTF-8?q?".data ++ (qEncode 0 s.data ++ "?=".data)) else s

end mime

/-- A `gomail.Message`: the header fields set so far, each with its values as
`SetHeader` stored them, and the body parts, each a content type with its
content.  A message made by `NewMessage()` has charset UTF-8 and the
quoted-printable encoding, hence the header encoder `mime.QEncoding`. -/
structure Message where
  header : List (String × List String)
  parts : List (String × String)
  deriving DecidableEq, Repr

/-- The constructor `gomail.NewMessage()`: no header field, no body. -/
def NewMessage : Message :=
  { header := [], parts := [] }

/-- The method `Message.SetHeader(field, value...)`: `m.encodeHeader(value)`
replaces every value by `m.hEncoder.Encode(m.charset, value)`, then the map
update `m.header[field] = value` replaces an earlier entry for the field. -/
def Message.SetHeader (m : Message) (field : String) (value : List String) : Message :=
  let value := value.map mime.QEncode
  { m with header := m.header.filter (fun kv => kv.1 ≠ field) ++ [(field, value)] }

/-- The method `Message.SetBody(contentType, body)`: the message gets exactly one part. -/
def Message.SetBody (m : Message) (contentType body : String) : Message :=
  { m with parts := [(contentType, body)] }

/-- One call of `Dialer.DialAndSend(message)`: the receiver and the message. -/
abbrev Call := Dialer × Message

/-! ## What the package reads from outside -/

/-- The globals of package `config` the package reads. -/
structure Config where
  SMTPServer : String
  SMTPPort : Int
  SMTPAccount : String
  SMTPToken : String
  SMTPFrom : String
  SystemName : String
  ServerAddress : String
  Version : String

/-- Everything outside the file that a call depends on: the configuration, the
variable `common.VerificationValidMinutes`, the value `utils.GetUUID()` returns
for this call, the function `getDefaultTemplate` (the outer HTML page, defined
elsewhere in the package) and the answer of the transport to
`Dialer.DialAndSend` (`none` is `nil`, i.e. the mail was delivered). -/
structure Env where
  config : Config
  VerificationValidMinutes : Int
  GetUUID : String
  getDefaultTemplate : String → String
  DialAndSend : Dialer → Message → Option GoError

/-! ## The package -/

/-- The struct `StmpConfig`. -/
structure StmpConfig where
  Host : String
  Port : Int
  Username : String
  Password : String
  From : String
  deriving DecidableEq, Repr

/-- The function `NewStmp`. -/
def NewStmp (host : String) (port : Int) (username password : String) (from_ : String) :
    StmpConfig :=
  let from_ := if from_ = "" then username else from_
  { Host := host, Port := port, Username := username, Password := password, From := from_ }

/-- The method `getReferences`: `froms := strings.Split(s.From, "@")`, then
`fmt.Sprintf("<%s.%s@%s>", froms[0], utils.GetUUID(), froms[1])`. -/
def StmpConfig.getReferences (s : StmpConfig) (env : Env) : Except Panic String := do
  let froms := strings.Split s.From '@'
  let local_ ← index froms 0
  let uuid := env.GetUUID
  let domain ← index froms 1
  pure (Sprintf "<%s.%s@%s>" [.str local_, .str uuid, .str domain])

/-- The method `Send`, with the transport calls it makes. -/
def StmpConfig.Send (s : StmpConfig) (env : Env) (to_ subject body : String) :
    Outcome × List Call :=
  let message := NewMessage
  let message := message.SetHeader "From" [s.From]
  let message := message.SetHeader "To" [to_]
  let message := message.SetHeader "Subject" [subject]
  match s.getReferences env with
  | .error p => (.panicked p, [])
  | .ok references =>
    let message := message.SetHeader "References" [references]
    let message := message.SetHeader "User-Agent"
      [Sprintf "One Hub %s // https://github.com/MartialBE/one-hub" [.str env.config.Version]]
    let message := message.SetBody "text/html" body
    let dialer := NewDialer s.Host s.Port s.Username s.Password
    let dialer :=
      if s.Port = 465 then { dialer with SSL := true }
      else if s.Port = 587 then { dialer with TLSConfig := none }
      else dialer
    match env.DialAndSend dialer message with
    | some err => (.returned (some (Errorf "failed to send email: %w" [.err err])), [(dialer, message)])
    | none => (.returned none, [(dialer, message)])

/-- The method `Render`. -/
def StmpConfig.Render (s : StmpConfig) (env : Env) (to_ subject content : String) :
    Outcome × List Call :=
  let body := env.getDefaultTemplate content
  s.Send env to_ subject body

/-- The function `GetSystemStmp`. -/
def GetSystemStmp (config : Config) : Except GoError StmpConfig :=
  if config.SMTPServer = "" ∨ config.SMTPPort = 0 ∨ config.SMTPAccount = "" ∨ config.SMTPToken = "" then
    .error (Errorf "SMTP 信息未配置" [])
  else
    .ok (NewStmp config.SMTPServer config.SMTPPort config.SMTPAccount config.SMTPToken config.SMTPFrom)

/-- The constant `contentTemp` of `SendPasswordResetEmail`. -/
def passwordResetTemplate : String :=
  "<p style=\"font-size: 30px\">Hi <strong>%s,</strong></p>\n\t<p>\n\t\t您正在进行密码重置。点击下方按钮以重置密码。\n\t</p>\n\n\t<p style=\"text-align: center; font-size: 13px;\">\n\t\t<a target=\"__blank\" href=\"%s\" class=\"button\" style=\"color: #ffffff;\">重置密码</a>\n\t</p>\n\n\t<p style=\"color: #858585; padding-top: 15px;\">\n\t\t如果链接无法点击，请尝试点击下面的链接或将其复制到浏览器中打开<br> %s\n\t</p>\n\t<p style=\"color: #858585;\">重置链接 %d 分钟内有效，如果不是本人操作，请忽略。</p>"

/-- The constant `contentTemp` of `SendVerificationCodeEmail`. -/
def verificationCodeTemplate : String :=
  "\n\t<p>\n\t\t您正在进行邮箱验证。您的验证码为:\n\t</p>\n\n\t<p style=\"text-align: center; font-size: 30px; color: #58a6ff;\">\n\t\t<strong>%s</strong>\n\t</p>\n\n\t<p style=\"color: #858585; padding-top: 15px;\">\n\t\t验证码 %d 分钟内有效，如果不是本人操作，请忽略。\n\t</p>"

/-- The constant `contentTemp` of `SendQuotaWarningCodeEmail`. -/
def quotaWarningTemplate : String :=
  "<p style=\"font-size: 30px\">Hi <strong>%s,</strong></p>\n\t\t<p>\n\t\t\t%s，当前剩余额度为 %d，为了不影响您的使用，请及时充值。\n\t\t</p>\n\n\t\t<p style=\"text-align: center; font-size: 13px;\">\n\t\t\t<a target=\"__blank\" href=\"%s\" class=\"button\" style=\"color: #ffffff;\">点击充值</a>\n\t\t</p>\n\n\t\t<p style=\"color: #858585; padding-top: 15px;\">\n\t\t\t如果链接无法点击，请尝试点击下面的链接或将其复制到浏览器中打开<br> %s\n\t\t</p>"

/-- The local `content` of `SendPasswordResetEmail`. -/
def passwordResetContent (env : Env) (userName link : String) : String :=
  Sprintf passwordResetTemplate
    [.str userName, .str link, .str link, .int env.VerificationValidMinutes]

/-- The function `SendPasswordResetEmail`. -/
def SendPasswordResetEmail (env : Env) (userName email link : String) : Outcome × List Call :=
  match GetSystemStmp env.config with
  | .error err => (.returned (some err), [])
  | .ok stmp =>
    let subject := Sprintf "%s密码重置" [.str env.config.SystemName]
    let content := passwordResetContent env userName link
    stmp.Render env email subject content

/-- The local `content` of `SendVerificationCodeEmail`. -/
def verificationCodeContent (env : Env) (code : String) : String :=
  Sprintf verificationCodeTemplate [.str code, .int env.VerificationValidMinutes]

/-- The function `SendVerificationCodeEmail`. -/
def SendVerificationCodeEmail (env : Env) (email code : String) : Outcome × List Call :=
  match GetSystemStmp env.config with
  | .error err => (.returned (some err), [])
  | .ok stmp =>
    let subject := Sprintf "%s邮箱验证邮件" [.str env.config.SystemName]
    let content := verificationCodeContent env code
    stmp.Render env email subject content

/-- The local `subject` of `SendQuotaWarningCodeEmail`. -/
def quotaWarningSubject (noMoreQuota : Bool) : String :=
  if noMoreQuota then "您的额度已用尽" else "您的额度即将用尽"

/-- The local `content` of `SendQuotaWarningCodeEmail`. -/
def quotaWarningContent (env : Env) (userName : String) (quota : Int) (noMoreQuota : Bool) :
    String :=
  let subject := quotaWarningSubject noMoreQuota
  let topUpLink := Sprintf "%s/topup" [.str env.config.ServerAddress]
  Sprintf quotaWarningTemplate
    [.str userName, .str subject, .int quota, .str topUpLink, .str topUpLink]

/-- The function `SendQuotaWarningCodeEmail`. -/
def SendQuotaWarningCodeEmail (env : Env) (userName email : String) (quota : Int)
    (noMoreQuota : Bool) : Outcome × List Call :=
  match GetSystemStmp env.config with
  | .error err => (.returned (some err), [])
  | .ok stmp =>
    let subject := quotaWarningSubject noMoreQuota
    let content := quotaWarningContent env userName quota noMoreQuota
    stmp.Render env email subject content

/-- A sample environment: a complete configuration, validity 10 minutes, a
transport that delivers. -/
def sampleEnv : Env :=
  { config :=
      { SMTPServer := "smtp.example.com", SMTPPort := 465, SMTPAccount := "noreply@example.com",
        SMTPToken := "secret", SMTPFrom := "", SystemName := "One Hub",
        ServerAddress := "https://hub.example.com", Version := "v1.0.0" },
    VerificationValidMinutes := 10,
    GetUUID := "0123456789abcdef0123456789abcdef",
    getDefaultTemplate := fun content => "<html>" ++ content ++ "</html>",
    DialAndSend := fun _ _ => none }

/-- The error `GetSystemStmp` returns for an incomplete configuration. -/
def configurationError : GoError :=
  .errorString "SMTP 信息未配置"

/-- The dialer `Send` builds: the settings copied, `SSL` set exactly for port 465. -/
def sentDialer (s : StmpConfig) : Dialer :=
  { Host := s.Host, Port := s.Port, Username := s.Username, Password := s.Password,
    SSL := decide (s.Port = 465), TLSConfig := none }

/-- The message `Send` builds, given the value `getReferences()` returned. -/
def sentMessage (s : StmpConfig) (env : Env) (to_ subject body references : String) : Message :=
  { header :=
      [("From", [mime.QEncode s.From]), ("To", [mime.QEncode to_]),
        ("Subject", [mime.QEncode subject]), ("References", [mime.QEncode references]),
        ("User-Agent",
          [mime.QEncode
            ("One Hub " ++ (env.config.Version ++ " // https://github.com/MartialBE/one-hub"))])],
    parts := [("text/html", body)] }

/-- Settings for the implicit-TLS port. -/
def settings465 : StmpConfig :=
  { Host := "smtp.example.com", Port := 465, Username := "noreply@example.com",
    Password := "secret", From := "noreply@example.com" }

/-- Settings for the STARTTLS port. -/
def settings587 : StmpConfig :=
  { settings465 with Port := 587 }

/-- Settings whose from-address has two `@`. -/
def settingsTwoAt : StmpConfig :=
  { settings465 with From := "a@b@c" }

/-- A complete configuration whose account is not an address and whose
from-override is empty. -/
def apikeyEnv : Env :=
  { sampleEnv with config := { sampleEnv.config with SMTPAccount := "apikey", SMTPPort := 587 } }

/-- The function `strings.Contains`. -/
def strings.Contains (s substr : String) : Prop :=
  substr.data <:+: s.data

instance (s substr : String) : Decidable (strings.Contains s substr) := by
  unfold strings.Contains; infer_instance

/-- A user name with characters that HTML escaping would change. -/
def markupName : String :=
  "<b>Tom & Jerry</b>"

/-- A configuration whose port is unset, with a transport that would deliver. -/
def unsetPortEnv : Env :=
  { sampleEnv with config := { sampleEnv.config with SMTPPort := 0 } }

/-! ## Auxiliary facts: `strings.Split`, the formatting calls, `Send` -/

theorem splitChars_length (sep : Char) (l : List Char) :
    (strings.splitChars sep l).length = l.count sep + 1 := by
  induction l with
  | nil => rfl
  | cons c cs ih =>
    by_cases h : c = sep
    · subst h
      simp [strings.splitChars, ih]
    · cases hs : strings.splitChars sep cs with
      | nil => simp [hs] at ih
      | cons piece pieces =>
        rw [hs] at ih
        simp only [strings.splitChars, if_neg h, hs]
        rw [List.count_cons_of_ne (Ne.symm h)]
        exact ih

theorem splitChars_intercalate (sep : Char) (l : List Char) :
    [sep].intercalate (strings.splitChars sep l) = l := by
  induction l with
  | nil => rfl
  | cons c cs ih =>
    by_cases h : c = sep
    · subst h
      cases hs : strings.splitChars c cs with
      | nil => 
        have := splitChars_length c cs
        simp [hs] at this
      | cons piece pieces =>
        rw [hs] at ih
        simp only [strings.splitChars, if_true, hs]
        simp [List.intercalate, List.intersperse] at ih ⊢
        exact ih
    · cases hs : strings.splitChars sep cs with
      | nil => 
        have := splitChars_length sep cs
        simp [hs] at this
      | cons piece pieces =>
        rw [hs] at ih
        simp only [strings.splitChars, if_neg h, hs]
        cases pieces with
        | nil => simp [List.intercalate, List.intersperse] at ih ⊢; exact ih
        | cons q qs => simp [List.intercalate, List.intersperse] at ih ⊢; exact ih

theorem splitChars_of_not_mem (sep : Char) (l : List Char) (h : sep ∉ l) :
    strings.splitChars sep l = [l] := by
  have hlen := splitChars_length sep l
  have hj := splitChars_intercalate sep l
  rw [List.count_eq_zero_of_not_mem h] at hlen
  match hs : strings.splitChars sep l, hlen with
  | [a], _ =>
    rw [hs] at hj
    simp [List.intercalate, List.intersperse] at hj
    rw [hj]

theorem splitChars_of_mem (sep : Char) (l : List Char) (h : sep ∈ l) :
    ∃ a b rest, strings.splitChars sep l = a :: b :: rest := by
  have hlen := splitChars_length sep l
  have hpos : 0 < l.count sep := List.count_pos_iff.mpr h
  match hs : strings.splitChars sep l, hlen with
  | [], hl => simp at hl
  | [a], hl => simp at hl; omega
  | a :: b :: rest, _ => exact ⟨a, b, rest, rfl⟩

theorem splitChars_of_count_one (sep : Char) (l : List Char) (h : l.count sep = 1) :
    ∃ a b, strings.splitChars sep l = [a, b] ∧ a ++ sep :: b = l := by
  have hlen := splitChars_length sep l
  have hj := splitChars_intercalate sep l
  rw [h] at hlen
  match hs : strings.splitChars sep l, hlen with
  | [a, b], _ =>
    rw [hs] at hj
    refine ⟨a, b, rfl, ?_⟩
    simpa [List.intercalate, List.intersperse] using hj

theorem Sprintf_references (x u y : String) :
    Sprintf "<%s.%s@%s>" [.str x, .str u, .str y] = "<" ++ (x ++ ("." ++ (u ++ ("@" ++ (y ++ ">"))))) :=
  rfl

theorem getReferences_of_split (s : StmpConfig) (env : Env) (a b : List Char)
    (rest : List (List Char)) (h : strings.splitChars '@' s.From.data = a :: b :: rest) :
    s.getReferences env =
      .ok ("<" ++ (String.mk a ++ ("." ++ (env.GetUUID ++ ("@" ++ (String.mk b ++ ">")))))) := by
  unfold StmpConfig.getReferences strings.Split
  rw [h]
  simp only [List.map_cons, index, List.getElem?_cons_zero, List.getElem?_cons_succ, bind, Except.bind, pure, Except.pure, Sprintf_references]

theorem getReferences_of_not_mem (s : StmpConfig) (env : Env) (h : '@' ∉ s.From.data) :
    s.getReferences env = .error (.indexOutOfRange 1 1) := by
  unfold StmpConfig.getReferences strings.Split
  rw [splitChars_of_not_mem _ _ h]
  rfl

theorem Errorf_send (e : GoError) :
    Errorf "failed to send email: %w" [.err e]
      = .wrapError ("failed to send email: " ++ e.Error) e := by
  have h : Errorf "failed to send email: %w" [.err e]
      = .wrapError ("failed to send email: " ++ (e.Error ++ "")) e := rfl
  rw [h, String.append_empty]

theorem Sprintf_userAgent (v : String) :
    Sprintf "One Hub %s // https://github.com/MartialBE/one-hub" [.str v]
      = "One Hub " ++ (v ++ " // https://github.com/MartialBE/one-hub") :=
  rfl

theorem QEncode_of_not_needsEncoding (v : String) (h : mime.needsEncoding v = false) :
    mime.QEncode v = v := by
  simp [mime.QEncode, h]

theorem needsEncoding_append (a b : String) :
    mime.needsEncoding (a ++ b) = (mime.needsEncoding a || mime.needsEncoding b) := by
  simp [mime.needsEncoding, String.data_append, List.any_append]

theorem Send_of_references_error (s : StmpConfig) (env : Env) (to_ subject body : String)
    (p : Panic) (h : s.getReferences env = .error p) :
    s.Send env to_ subject body = (.panicked p, []) := by
  unfold StmpConfig.Send
  simp only [h]

theorem Send_of_references_ok (s : StmpConfig) (env : Env) (to_ subject body refs : String)
    (h : s.getReferences env = .ok refs) :
    s.Send env to_ subject body =
      (.returned ((env.DialAndSend (sentDialer s) (sentMessage s env to_ subject body refs)).map
          (fun err => .wrapError ("failed to send email: " ++ err.Error) err)),
        [(sentDialer s, sentMessage s env to_ subject body refs)]) := by
  have hm : (((((NewMessage.SetHeader "From" [s.From]).SetHeader "To" [to_]).SetHeader "Subject"
      [subject]).SetHeader "References" [refs]).SetHeader "User-Agent"
      [Sprintf "One Hub %s // https://github.com/MartialBE/one-hub" [.str env.config.Version]]).SetBody
      "text/html" body = sentMessage s env to_ subject body refs := by
    rw [Sprintf_userAgent]
    simp [Message.SetHeader, Message.SetBody, NewMessage, sentMessage]
  have hd : (if s.Port = 465 then { NewDialer s.Host s.Port s.Username s.Password with SSL := true }
      else if s.Port = 587 then
        { NewDialer s.Host s.Port s.Username s.Password with TLSConfig := none }
      else NewDialer s.Host s.Port s.Username s.Password) = sentDialer s := by
    by_cases h1 : s.Port = 465
    · simp [h1, NewDialer, sentDialer]
    · by_cases h2 : s.Port = 587
      · simp [h2, NewDialer, sentDialer]
      · simp [h1, h2, NewDialer, sentDialer]
  unfold StmpConfig.Send
  simp only [h, hm, hd, Errorf_send]
  cases env.DialAndSend (sentDialer s) (sentMessage s env to_ subject body refs) <;> rfl

/-- Whenever `getReferences` returns, `Send` calls `DialAndSend` exactly once, returns
`nil` exactly when that call returns `nil`, and otherwise returns an error that
wraps the cause with the message `failed to send email: ` followed by the
cause's message. -/
theorem Send_once_of_references (s : StmpConfig) (env : Env) (to_ subject body refs : String)
    (h : s.getReferences env = .ok refs) :
    ∃ dialer message,
      (s.Send env to_ subject body).2 = [(dialer, message)] ∧
      (env.DialAndSend dialer message = none →
        (s.Send env to_ subject body).1 = .returned none) ∧
      (∀ cause, env.DialAndSend dialer message = some cause →
        ∃ e, (s.Send env to_ subject body).1 = .returned (some e) ∧
          e.Unwrap = some cause ∧ e.Error = "failed to send email: " ++ cause.Error) := by
  refine ⟨sentDialer s, sentMessage s env to_ subject body refs, ?_, ?_, ?_⟩
  · rw [Send_of_references_ok s env to_ subject body refs h]
  · intro hn
    rw [Send_of_references_ok s env to_ subject body refs h, hn]
    rfl
  · intro cause hc
    rw [Send_of_references_ok s env to_ subject body refs h, hc]
    exact ⟨_, rfl, rfl, rfl⟩

theorem contains_of_eq (s a x b : String) (h : s = a ++ (x ++ b)) : strings.Contains s x := by
  unfold strings.Contains
  rw [h]
  exact ⟨a.data, b.data, by simp [String.data_append]⟩

set_option maxRecDepth 100000 in
theorem passwordResetContent_eq (env : Env) (userName link : String) :
    passwordResetContent env userName link =
      "<p style=\"font-size: 30px\">Hi <strong>" ++
      (userName ++
      (",</strong></p>\n\t<p>\n\t\t您正在进行密码重置。点击下方按钮以重置密码。\n\t</p>\n\n\t<p style=\"text-align: center; font-size: 13px;\">\n\t\t<a target=\"__blank\" href=\"" ++
      (link ++
      ("\" class=\"button\" style=\"color: #ffffff;\">重置密码</a>\n\t</p>\n\n\t<p style=\"color: #858585; padding-top: 15px;\">\n\t\t如果链接无法点击，请尝试点击下面的链接或将其复制到浏览器中打开<br> " ++
      (link ++
      ("\n\t</p>\n\t<p style=\"color: #858585;\">重置链接 " ++
      (formatInt env.VerificationValidMinutes ++
      (" 分钟内有效，如果不是本人操作，请忽略。</p>")))))))) :=
  rfl

set_option maxRecDepth 100000 in
theorem verificationCodeContent_eq (env : Env) (code : String) :
    verificationCodeContent env code =
      "\n\t<p>\n\t\t您正在进行邮箱验证。您的验证码为:\n\t</p>\n\n\t<p style=\"text-align: center; font-size: 30px; color: #58a6ff;\">\n\t\t<strong>" ++
      (code ++
      ("</strong>\n\t</p>\n\n\t<p style=\"color: #858585; padding-top: 15px;\">\n\t\t验证码 " ++
      (formatInt env.VerificationValidMinutes ++
      (" 分钟内有效，如果不是本人操作，请忽略。\n\t</p>")))) :=
  rfl

set_option maxRecDepth 100000 in
theorem quotaWarningContent_eq (env : Env) (userName : String) (quota : Int) (noMoreQuota : Bool) :
    quotaWarningContent env userName quota noMoreQuota =
      "<p style=\"font-size: 30px\">Hi <strong>" ++
      (userName ++
      (",</strong></p>\n\t\t<p>\n\t\t\t" ++
      (quotaWarningSubject noMoreQuota ++
      ("，当前剩余额度为 " ++
      (formatInt quota ++
      ("，为了不影响您的使用，请及时充值。\n\t\t</p>\n\n\t\t<p style=\"text-align: center; font-size: 13px;\">\n\t\t\t<a target=\"__blank\" href=\"" ++
      ((env.config.ServerAddress ++ "/topup") ++
      ("\" class=\"button\" style=\"color: #ffffff;\">点击充值</a>\n\t\t</p>\n\n\t\t<p style=\"color: #858585; padding-top: 15px;\">\n\t\t\t如果链接无法点击，请尝试点击下面的链接或将其复制到浏览器中打开<br> " ++
      ((env.config.ServerAddress ++ "/topup") ++
      ("\n\t\t</p>")))))))))) :=
  rfl

theorem Sprintf_verificationSubject (name : String) :
    Sprintf "%s邮箱验证邮件" [.str name] = name ++ "邮箱验证邮件" :=
  rfl

theorem Sprintf_resetSubject (name : String) :
    Sprintf "%s密码重置" [.str name] = name ++ "密码重置" :=
  rfl

/-! ## Properties -/

/-- C1. With an incomplete configuration (host, port, account or token unset) each
of `SendPasswordResetEmail`, `SendVerificationCodeEmail` and
`SendQuotaWarningCodeEmail` returns the configuration error, for all arguments,
and makes no transport call. -/
theorem senders_incomplete_config (env : Env)
    (h : env.config.SMTPServer = "" ∨ env.config.SMTPPort = 0 ∨ env.config.SMTPAccount = "" ∨
      env.config.SMTPToken = "")
    (userName email link code : String) (quota : Int) (noMoreQuota : Bool) :
    SendPasswordResetEmail env userName email link = (.returned (some configurationError), []) ∧
    SendVerificationCodeEmail env email code = (.returned (some configurationError), []) ∧
    SendQuotaWarningCodeEmail env userName email quota noMoreQuota
      = (.returned (some configurationError), []) := by
  have e : GetSystemStmp env.config = .error configurationError := by
    unfold GetSystemStmp
    rw [if_pos h]
    rfl
  refine ⟨?_, ?_, ?_⟩
  · simp only [SendPasswordResetEmail, e]
  · simp only [SendVerificationCodeEmail, e]
  · simp only [SendQuotaWarningCodeEmail, e]

theorem senders_incomplete_config_witness :
    SendPasswordResetEmail unsetPortEnv "Ann" "ann@example.com" "https://x/reset"
      = (.returned (some (.errorString "SMTP 信息未配置")), []) ∧
    SendVerificationCodeEmail unsetPortEnv "ann@example.com" "123456"
      = (.returned (some (.errorString "SMTP 信息未配置")), []) ∧
    SendQuotaWarningCodeEmail unsetPortEnv "Ann" "ann@example.com" 5 true
      = (.returned (some (.errorString "SMTP 信息未配置")), []) :=
  senders_incomplete_config unsetPortEnv (Or.inr (Or.inl rfl)) "Ann" "ann@example.com"
    "https://x/reset" "123456" 5 true

/-- C2. `GetSystemStmp` fails exactly when host, port, account or token is unset,
and then with the configuration error; on every other configuration, whatever
the port, it returns `NewStmp(SMTPServer, SMTPPort, SMTPAccount, SMTPToken, SMTPFrom)`. -/
theorem GetSystemStmp_spec (c : Config) :
    ((∃ e, GetSystemStmp c = .error e) ↔
      (c.SMTPServer = "" ∨ c.SMTPPort = 0 ∨ c.SMTPAccount = "" ∨ c.SMTPToken = "")) ∧
    ((c.SMTPServer = "" ∨ c.SMTPPort = 0 ∨ c.SMTPAccount = "" ∨ c.SMTPToken = "") →
      GetSystemStmp c = .error configurationError) ∧
    (¬ (c.SMTPServer = "" ∨ c.SMTPPort = 0 ∨ c.SMTPAccount = "" ∨ c.SMTPToken = "") →
      GetSystemStmp c =
        .ok (NewStmp c.SMTPServer c.SMTPPort c.SMTPAccount c.SMTPToken c.SMTPFrom)) := by
  by_cases h : c.SMTPServer = "" ∨ c.SMTPPort = 0 ∨ c.SMTPAccount = "" ∨ c.SMTPToken = ""
  · have e : GetSystemStmp c = .error configurationError := by
      unfold GetSystemStmp
      rw [if_pos h]
      rfl
    exact ⟨⟨fun _ => h, fun _ => ⟨_, e⟩⟩, fun _ => e, fun n => absurd h n⟩
  · have e : GetSystemStmp c =
        .ok (NewStmp c.SMTPServer c.SMTPPort c.SMTPAccount c.SMTPToken c.SMTPFrom) := by
      unfold GetSystemStmp
      rw [if_neg h]
    refine ⟨⟨?_, fun a => absurd a h⟩, fun a => absurd a h, fun _ => e⟩
    rintro ⟨err, he⟩
    rw [e] at he
    cases he

theorem GetSystemStmp_spec_witness :
    GetSystemStmp
        { SMTPServer := "??", SMTPPort := -1, SMTPAccount := "acct", SMTPToken := "tok",
          SMTPFrom := "", SystemName := "", ServerAddress := "", Version := "" }
      = .ok (NewStmp "??" (-1) "acct" "tok" "") ∧
    GetSystemStmp
        { SMTPServer := "smtp.example.com", SMTPPort := 0, SMTPAccount := "acct",
          SMTPToken := "tok", SMTPFrom := "", SystemName := "", ServerAddress := "",
          Version := "" }
      = .error (.errorString "SMTP 信息未配置") :=
  ⟨(GetSystemStmp_spec _).2.2 (by decide), (GetSystemStmp_spec _).2.1 (by decide)⟩

/-- C3. `NewStmp` with an empty `from` yields `From == username`; with a non-empty
`from` it yields `From == from`; host, port, username and password are stored
unchanged.  `NewStmp` is a total function: no argument is validated or refused. -/
theorem NewStmp_spec (host : String) (port : Int) (username password from_ : String) :
    (NewStmp host port username password "").From = username ∧
    (from_ ≠ "" → (NewStmp host port username password from_).From = from_) ∧
    (NewStmp host port username password from_).Host = host ∧
    (NewStmp host port username password from_).Port = port ∧
    (NewStmp host port username password from_).Username = username ∧
    (NewStmp host port username password from_).Password = password := by
  refine ⟨by simp [NewStmp], ?_, rfl, rfl, rfl, rfl⟩
  intro h
  simp [NewStmp, h]

theorem NewStmp_spec_witness :
    (NewStmp "not a host" (-7) "user" "pw" "ops@example.com").From = "ops@example.com" :=
  (NewStmp_spec "not a host" (-7) "user" "pw" "ops@example.com").2.1 (by decide)

/-- C4. Every dialer `Send` hands to the transport has `SSL` set if and only if the
port is 465; in particular it is set for port 465 and not set for port 587. -/
theorem Send_dialer_ssl (s : StmpConfig) (env : Env) (to_ subject body : String) (call : Call)
    (h : call ∈ (s.Send env to_ subject body).2) :
    (call.1.SSL = true ↔ s.Port = 465) ∧ (s.Port = 465 → call.1.SSL = true) ∧
      (s.Port = 587 → call.1.SSL = false) := by
  cases hr : s.getReferences env with
  | error p =>
    rw [Send_of_references_error s env to_ subject body p hr] at h
    simp at h
  | ok refs =>
    rw [Send_of_references_ok s env to_ subject body refs hr] at h
    simp only [List.mem_singleton] at h
    subst h
    refine ⟨by simp [sentDialer], fun h465 => by simp [sentDialer, h465],
      fun h587 => by simp [sentDialer, h587]⟩

set_option maxRecDepth 100000 in
theorem Send_dialer_ssl_witness :
    ((sentDialer settings465, sentMessage settings465 sampleEnv "a@b.com" "hello" "<p>x</p>"
        "<noreply.0123456789abcdef0123456789abcdef@example.com>")
      ∈ (settings465.Send sampleEnv "a@b.com" "hello" "<p>x</p>").2) ∧
    (sentDialer settings465).SSL = true ∧
    ((sentDialer settings587, sentMessage settings587 sampleEnv "a@b.com" "hello" "<p>x</p>"
        "<noreply.0123456789abcdef0123456789abcdef@example.com>")
      ∈ (settings587.Send sampleEnv "a@b.com" "hello" "<p>x</p>").2) ∧
    (sentDialer settings587).SSL = false := by
  have m465 : (sentDialer settings465, sentMessage settings465 sampleEnv "a@b.com" "hello"
      "<p>x</p>" "<noreply.0123456789abcdef0123456789abcdef@example.com>")
      ∈ (settings465.Send sampleEnv "a@b.com" "hello" "<p>x</p>").2 := by decide
  have m587 : (sentDialer settings587, sentMessage settings587 sampleEnv "a@b.com" "hello"
      "<p>x</p>" "<noreply.0123456789abcdef0123456789abcdef@example.com>")
      ∈ (settings587.Send sampleEnv "a@b.com" "hello" "<p>x</p>").2 := by decide
  exact ⟨m465,
    (Send_dialer_ssl settings465 sampleEnv "a@b.com" "hello" "<p>x</p>" _ m465).2.1 rfl,
    m587,
    (Send_dialer_ssl settings587 sampleEnv "a@b.com" "hello" "<p>x</p>" _ m587).2.2 rfl⟩

/-- C5, as amended. For settings whose from-address contains exactly one `@`,
`getReferences` returns `<left.uuid@right>` where `left@right` is the from-address
and `uuid` is the generated identifier. -/
theorem getReferences_pattern (s : StmpConfig) (env : Env) (h : s.From.data.count '@' = 1) :
    ∃ left right : String,
      s.getReferences env = .ok ("<" ++ left ++ "." ++ env.GetUUID ++ "@" ++ right ++ ">") ∧
      left ++ "@" ++ right = s.From := by
  obtain ⟨a, b, hs, hab⟩ := splitChars_of_count_one '@' s.From.data h
  refine ⟨String.mk a, String.mk b, ?_, ?_⟩
  · rw [getReferences_of_split s env a b [] hs]
    simp only [String.append_assoc]
  · apply String.ext
    simp only [String.data_append]
    simpa using hab

theorem getReferences_pattern_witness :
    ∃ left right : String,
      settings465.getReferences sampleEnv
        = .ok ("<" ++ left ++ "." ++ sampleEnv.GetUUID ++ "@" ++ right ++ ">") ∧
      left ++ "@" ++ right = "noreply@example.com" :=
  getReferences_pattern settings465 sampleEnv (by decide)

/-- C5, as stated, fails: for the from-address `a@b@c` the header value is
`<a.uuid@b>`, which is not of the form `<left.uuid@right>` with `left@right`
the from-address; and for a from-address without `@` no value is produced. -/
theorem getReferences_pattern_counterexample :
    settingsTwoAt.getReferences sampleEnv = .ok "<a.0123456789abcdef0123456789abcdef@b>" ∧
    (¬ ∃ left right : String,
      "<a.0123456789abcdef0123456789abcdef@b>"
        = "<" ++ left ++ "." ++ sampleEnv.GetUUID ++ "@" ++ right ++ ">" ∧
      left ++ "@" ++ right = settingsTwoAt.From) ∧
    (¬ ∃ v, ({ settings465 with From := "apikey" } : StmpConfig).getReferences sampleEnv = .ok v) := by
  refine ⟨rfl, ?_, ?_⟩
  · rintro ⟨left, right, h1, h2⟩
    have l1 := congrArg String.length h1
    have l2 := congrArg String.length h2
    simp only [String.length_append] at l1 l2
    have e1 : String.length "<a.0123456789abcdef0123456789abcdef@b>" = 38 := by decide
    have e2 : String.length settingsTwoAt.From = 5 := by decide
    have e3 : String.length sampleEnv.GetUUID = 32 := by decide
    have e4 : String.length "<" = 1 := by decide
    have e5 : String.length "." = 1 := by decide
    have e6 : String.length "@" = 1 := by decide
    have e7 : String.length ">" = 1 := by decide
    rw [e1, e3, e4, e5, e6, e7] at l1
    rw [e2, e6] at l2
    omega
  · rintro ⟨v, hv⟩
    cases hv

/-- C6, at the failing input. The complete configuration with account `apikey`,
port 587 and no from-override passes `GetSystemStmp`, and `Send` on the resulting
settings panics with `index out of range [1] with length 1`: `DialAndSend` is not
called once but never, and `Send` returns neither `nil` nor an error. -/
theorem Send_panics_on_apikey :
    GetSystemStmp apikeyEnv.config = .ok (NewStmp "smtp.example.com" 587 "apikey" "secret" "") ∧
    (NewStmp "smtp.example.com" 587 "apikey" "secret" "").Send apikeyEnv "a@b.com" "hello"
        "<p>x</p>"
      = (.panicked (.indexOutOfRange 1 1), []) :=
  ⟨rfl, by decide⟩

/-- C7, as amended. For settings whose from-address is well formed (it contains
`@`, so that `getReferences` returns) `Send` hands the transport one message.
Its header fields are exactly From, To, Subject, References and User-Agent, and
the value stored for each is `mime.QEncoding.Encode("UTF-8", v)` where `v` is
`s.From`, `to`, `subject`, the value of `getReferences()` and
`One Hub <version> // <url>`; when these values consist of printable ASCII and
tabs only, the stored values are the values themselves.  The only body part is
`text/html` with `body` unchanged. -/
theorem Send_message (s : StmpConfig) (env : Env) (to_ subject body : String)
    (h : '@' ∈ s.From.data) :
    ∃ refs dialer message,
      s.getReferences env = .ok refs ∧
      (s.Send env to_ subject body).2 = [(dialer, message)] ∧
      message.header =
        [("From", [mime.QEncode s.From]), ("To", [mime.QEncode to_]),
          ("Subject", [mime.QEncode subject]), ("References", [mime.QEncode refs]),
          ("User-Agent",
            [mime.QEncode
              ("One Hub " ++ env.config.Version ++ " // https://github.com/MartialBE/one-hub")])] ∧
      message.parts = [("text/html", body)] ∧
      (mime.needsEncoding s.From = false → mime.needsEncoding to_ = false →
        mime.needsEncoding subject = false → mime.needsEncoding refs = false →
        mime.needsEncoding env.config.Version = false →
        message.header =
          [("From", [s.From]), ("To", [to_]), ("Subject", [subject]), ("References", [refs]),
            ("User-Agent",
              ["One Hub " ++ env.config.Version ++ " // https://github.com/MartialBE/one-hub"])]) := by
  obtain ⟨a, b, rest, hs⟩ := splitChars_of_mem '@' s.From.data h
  have hr := getReferences_of_split s env a b rest hs
  generalize "<" ++ (String.mk a ++ ("." ++ (env.GetUUID ++ ("@" ++ (String.mk b ++ ">")))))
    = refs at hr
  refine ⟨refs, sentDialer s, sentMessage s env to_ subject body refs, hr, ?_, ?_, rfl, ?_⟩
  · rw [Send_of_references_ok s env to_ subject body refs hr]
  · simp only [sentMessage, String.append_assoc]
  · intro h1 h2 h3 h4 h5
    have hua : mime.needsEncoding
        ("One Hub " ++ (env.config.Version ++ " // https://github.com/MartialBE/one-hub"))
        = false := by
      rw [needsEncoding_append, needsEncoding_append, h5]
      decide
    simp only [sentMessage, String.append_assoc, QEncode_of_not_needsEncoding _ h1,
      QEncode_of_not_needsEncoding _ h2, QEncode_of_not_needsEncoding _ h3,
      QEncode_of_not_needsEncoding _ h4, QEncode_of_not_needsEncoding _ hua]

set_option maxRecDepth 100000 in
theorem Send_message_witness :
    ∃ refs dialer message,
      settings465.getReferences sampleEnv = .ok refs ∧
      (settings465.Send sampleEnv "a@b.com" "hello" "<p>x</p>").2 = [(dialer, message)] ∧
      message.header =
        [("From", [mime.QEncode "noreply@example.com"]), ("To", [mime.QEncode "a@b.com"]),
          ("Subject", [mime.QEncode "hello"]), ("References", [mime.QEncode refs]),
          ("User-Agent",
            [mime.QEncode
              ("One Hub " ++ "v1.0.0" ++ " // https://github.com/MartialBE/one-hub")])] ∧
      message.parts = [("text/html", "<p>x</p>")] ∧
      (mime.needsEncoding "noreply@example.com" = false → mime.needsEncoding "a@b.com" = false →
        mime.needsEncoding "hello" = false → mime.needsEncoding refs = false →
        mime.needsEncoding "v1.0.0" = false →
        message.header =
          [("From", ["noreply@example.com"]), ("To", ["a@b.com"]), ("Subject", ["hello"]),
            ("References", [refs]),
            ("User-Agent",
              ["One Hub " ++ "v1.0.0" ++ " // https://github.com/MartialBE/one-hub"])]) :=
  Send_message settings465 sampleEnv "a@b.com" "hello" "<p>x</p>" (by decide)

/-- C7, as stated, fails: with the subject `您的额度已用尽` (the one
`SendQuotaWarningCodeEmail` passes when the quota is used up) the message handed
to the transport stores the Subject as an encoded word, not as the subject, so
its header is not the list of the unchanged values. -/
theorem Send_message_counterexample :
    (settings465.Send sampleEnv "a@b.com" "您的额度已用尽" "<p>x</p>").2.map
        (fun call => call.2.header.lookup "Subject")
      = [some ["=?UTF-8?q?=E6=82=A8=E7=9A=84=E9=A2=9D=E5=BA=A6=E5=B7=B2=E7=94=A8=E5=B0=BD?="]] ∧
    ¬ ∃ refs dialer message,
      settings465.getReferences sampleEnv = .ok refs ∧
      (settings465.Send sampleEnv "a@b.com" "您的额度已用尽" "<p>x</p>").2 = [(dialer, message)] ∧
      message.header =
        [("From", [settings465.From]), ("To", ["a@b.com"]), ("Subject", ["您的额度已用尽"]),
          ("References", [refs]),
          ("User-Agent",
            ["One Hub " ++ sampleEnv.config.Version ++
              " // https://github.com/MartialBE/one-hub"])] ∧
      message.parts = [("text/html", "<p>x</p>")] := by
  refine ⟨by decide, ?_⟩
  rintro ⟨refs, dialer, message, hr, ht, hh, -⟩
  rw [Send_of_references_ok settings465 sampleEnv _ _ _ refs hr] at ht
  simp only [List.cons.injEq, Prod.mk.injEq, and_true] at ht
  rw [← ht.2] at hh
  simp only [sentMessage, Message.mk.injEq, List.cons.injEq, Prod.mk.injEq, true_and] at hh
  have hsub := hh.2.2.1
  revert hsub
  decide

/-- C8. With complete SMTP settings `SendVerificationCodeEmail(email, code)` calls
`Render` on the settings with recipient `email`, subject `SystemName` followed by
`邮箱验证邮件`, and a content fragment that contains `code` verbatim and the
decimal rendering of the validity constant. -/
theorem SendVerificationCodeEmail_content (env : Env) (email code : String)
    (h : ¬ (env.config.SMTPServer = "" ∨ env.config.SMTPPort = 0 ∨ env.config.SMTPAccount = "" ∨
      env.config.SMTPToken = "")) :
    ∃ content : String,
      SendVerificationCodeEmail env email code =
        (NewStmp env.config.SMTPServer env.config.SMTPPort env.config.SMTPAccount
          env.config.SMTPToken env.config.SMTPFrom).Render env email
          (env.config.SystemName ++ "邮箱验证邮件") content ∧
      strings.Contains content code ∧
      strings.Contains content (formatInt env.VerificationValidMinutes) := by
  have hg : GetSystemStmp env.config = .ok (NewStmp env.config.SMTPServer env.config.SMTPPort
      env.config.SMTPAccount env.config.SMTPToken env.config.SMTPFrom) := by
    unfold GetSystemStmp
    rw [if_neg h]
  refine ⟨verificationCodeContent env code, ?_, ?_, ?_⟩
  · simp only [SendVerificationCodeEmail, hg, Sprintf_verificationSubject]
  · exact contains_of_eq _ _ _ _ (verificationCodeContent_eq env code)
  · rw [verificationCodeContent_eq env code, ← String.append_assoc, ← String.append_assoc]
    exact contains_of_eq _ _ _ _ rfl

set_option maxRecDepth 100000 in
theorem SendVerificationCodeEmail_content_witness :
    ∃ content : String,
      SendVerificationCodeEmail sampleEnv "a@b.com" "123456" =
        (NewStmp "smtp.example.com" 465 "noreply@example.com" "secret" "").Render sampleEnv
          "a@b.com" ("One Hub" ++ "邮箱验证邮件") content ∧
      strings.Contains content "123456" ∧ strings.Contains content "10" :=
  SendVerificationCodeEmail_content sampleEnv "a@b.com" "123456" (by decide)

/-- C9. The content fragments of `SendPasswordResetEmail` and of
`SendQuotaWarningCodeEmail` carry the user name unchanged, whatever characters it
contains, directly after the literal `Hi <strong>`; the fragment of
`SendPasswordResetEmail` carries the link unchanged at two further places.
With complete SMTP settings these fragments are what the two functions pass to
`Render`. -/
theorem content_interpolated_verbatim (env : Env) (userName email link : String) (quota : Int)
    (noMoreQuota : Bool)
    (h : ¬ (env.config.SMTPServer = "" ∨ env.config.SMTPPort = 0 ∨ env.config.SMTPAccount = "" ∨
      env.config.SMTPToken = "")) :
    (∃ content mid₁ mid₂ rest : String,
      SendPasswordResetEmail env userName email link =
        (NewStmp env.config.SMTPServer env.config.SMTPPort env.config.SMTPAccount
          env.config.SMTPToken env.config.SMTPFrom).Render env email
          (env.config.SystemName ++ "密码重置") content ∧
      content = "<p style=\"font-size: 30px\">Hi <strong>" ++ userName ++ mid₁ ++ link ++ mid₂ ++
        link ++ rest) ∧
    (∃ content rest : String,
      SendQuotaWarningCodeEmail env userName email quota noMoreQuota =
        (NewStmp env.config.SMTPServer env.config.SMTPPort env.config.SMTPAccount
          env.config.SMTPToken env.config.SMTPFrom).Render env email
          (quotaWarningSubject noMoreQuota) content ∧
      content = "<p style=\"font-size: 30px\">Hi <strong>" ++ userName ++ rest) := by
  have hg : GetSystemStmp env.config = .ok (NewStmp env.config.SMTPServer env.config.SMTPPort
      env.config.SMTPAccount env.config.SMTPToken env.config.SMTPFrom) := by
    unfold GetSystemStmp
    rw [if_neg h]
  refine ⟨⟨passwordResetContent env userName link,
      ",</strong></p>\n\t<p>\n\t\t您正在进行密码重置。点击下方按钮以重置密码。\n\t</p>\n\n\t<p style=\"text-align: center; font-size: 13px;\">\n\t\t<a target=\"__blank\" href=\"",
      "\" class=\"button\" style=\"color: #ffffff;\">重置密码</a>\n\t</p>\n\n\t<p style=\"color: #858585; padding-top: 15px;\">\n\t\t如果链接无法点击，请尝试点击下面的链接或将其复制到浏览器中打开<br> ",
      "\n\t</p>\n\t<p style=\"color: #858585;\">重置链接 " ++
        (formatInt env.VerificationValidMinutes ++
        " 分钟内有效，如果不是本人操作，请忽略。</p>"),
      ?_, ?_⟩,
    ⟨quotaWarningContent env userName quota noMoreQuota,
      ",</strong></p>\n\t\t<p>\n\t\t\t" ++
        (quotaWarningSubject noMoreQuota ++
        ("，当前剩余额度为 " ++
        (formatInt quota ++
        ("，为了不影响您的使用，请及时充值。\n\t\t</p>\n\n\t\t<p style=\"text-align: center; font-size: 13px;\">\n\t\t\t<a target=\"__blank\" href=\"" ++
        ((env.config.ServerAddress ++ "/topup") ++
        ("\" class=\"button\" style=\"color: #ffffff;\">点击充值</a>\n\t\t</p>\n\n\t\t<p style=\"color: #858585; padding-top: 15px;\">\n\t\t\t如果链接无法点击，请尝试点击下面的链接或将其复制到浏览器中打开<br> " ++
        ((env.config.ServerAddress ++ "/topup") ++
        "\n\t\t</p>"))))))),
      ?_, ?_⟩⟩
  · simp only [SendPasswordResetEmail, hg, Sprintf_resetSubject]
  · rw [passwordResetContent_eq env userName link]
    simp only [String.append_assoc]
  · simp only [SendQuotaWarningCodeEmail, hg]
  · rw [quotaWarningContent_eq env userName quota noMoreQuota]
    simp only [String.append_assoc]

theorem content_interpolated_verbatim_witness :
    (∃ content mid₁ mid₂ rest : String,
      SendPasswordResetEmail sampleEnv markupName "a@b.com" "https://x/?a=1&b=<2>" =
        (NewStmp "smtp.example.com" 465 "noreply@example.com" "secret" "").Render sampleEnv
          "a@b.com" ("One Hub" ++ "密码重置") content ∧
      content = "<p style=\"font-size: 30px\">Hi <strong>" ++ "<b>Tom & Jerry</b>" ++ mid₁ ++
        "https://x/?a=1&b=<2>" ++ mid₂ ++ "https://x/?a=1&b=<2>" ++ rest) ∧
    (∃ content rest : String,
      SendQuotaWarningCodeEmail sampleEnv markupName "a@b.com" 5 true =
        (NewStmp "smtp.example.com" 465 "noreply@example.com" "secret" "").Render sampleEnv
          "a@b.com" "您的额度已用尽" content ∧
      content = "<p style=\"font-size: 30px\">Hi <strong>" ++ "<b>Tom & Jerry</b>" ++ rest) :=
  content_interpolated_verbatim sampleEnv markupName "a@b.com" "https://x/?a=1&b=<2>" 5 true
    (by decide)

/-- C10. `getReferences` reads `froms[1]` unchecked: when the from-address contains
an `@` the index is in range and a value is returned; when it contains none the
index is out of range (`index out of range [1] with length 1`) and `Send` panics
before any transport call.  Such settings are reachable: a complete
configuration with an empty from-override and an account without `@` passes
`GetSystemStmp`, and `Send` on the settings it returns, hence also
`SendVerificationCodeEmail`, panics this way. -/
theorem getReferences_index_bounds :
    (∀ (s : StmpConfig) (env : Env), '@' ∈ s.From.data → ∃ v, s.getReferences env = .ok v) ∧
    (∀ (s : StmpConfig) (env : Env), '@' ∉ s.From.data →
      s.getReferences env = .error (.indexOutOfRange 1 1) ∧
      ∀ to_ subject body : String,
        s.Send env to_ subject body = (.panicked (.indexOutOfRange 1 1), [])) ∧
    (∀ env : Env,
      ¬ (env.config.SMTPServer = "" ∨ env.config.SMTPPort = 0 ∨ env.config.SMTPAccount = "" ∨
        env.config.SMTPToken = "") →
      env.config.SMTPFrom = "" → '@' ∉ env.config.SMTPAccount.data →
      ∃ s, GetSystemStmp env.config = .ok s ∧
        (∀ to_ subject body : String,
          s.Send env to_ subject body = (.panicked (.indexOutOfRange 1 1), [])) ∧
        ∀ email code : String,
          SendVerificationCodeEmail env email code = (.panicked (.indexOutOfRange 1 1), [])) := by
  refine ⟨?_, ?_, ?_⟩
  · intro s env h
    obtain ⟨a, b, rest, hs⟩ := splitChars_of_mem '@' s.From.data h
    exact ⟨_, getReferences_of_split s env a b rest hs⟩
  · intro s env h
    have hr := getReferences_of_not_mem s env h
    exact ⟨hr, fun to_ subject body => Send_of_references_error s env to_ subject body _ hr⟩
  · intro env hc hf ha
    have hg : GetSystemStmp env.config = .ok (NewStmp env.config.SMTPServer env.config.SMTPPort
        env.config.SMTPAccount env.config.SMTPToken env.config.SMTPFrom) := by
      unfold GetSystemStmp
      rw [if_neg hc]
    have hfrom : (NewStmp env.config.SMTPServer env.config.SMTPPort env.config.SMTPAccount
        env.config.SMTPToken env.config.SMTPFrom).From = env.config.SMTPAccount := by
      simp [NewStmp, hf]
    have hr := getReferences_of_not_mem (NewStmp env.config.SMTPServer env.config.SMTPPort
        env.config.SMTPAccount env.config.SMTPToken env.config.SMTPFrom) env (by rw [hfrom]; exact ha)
    refine ⟨_, hg, fun to_ subject body => Send_of_references_error _ env to_ subject body _ hr, ?_⟩
    intro email code
    simp only [SendVerificationCodeEmail, hg, StmpConfig.Render]
    exact Send_of_references_error _ env _ _ _ _ hr

theorem getReferences_index_bounds_witness :
    (∃ v, settings465.getReferences sampleEnv = .ok v) ∧
    ({ settings465 with From := "postmaster" } : StmpConfig).getReferences sampleEnv
      = .error (.indexOutOfRange 1 1) ∧
    ∃ s, GetSystemStmp apikeyEnv.config = .ok s ∧
      (∀ to_ subject body : String,
        s.Send apikeyEnv to_ subject body = (.panicked (.indexOutOfRange 1 1), [])) ∧
      ∀ email code : String,
        SendVerificationCodeEmail apikeyEnv email code = (.panicked (.indexOutOfRange 1 1), []) :=
  ⟨getReferences_index_bounds.1 settings465 sampleEnv (by decide),
    (getReferences_index_bounds.2.1 { settings465 with From := "postmaster" } sampleEnv
      (by decide)).1,
    getReferences_index_bounds.2.2 apikeyEnv (by decide) rfl (by decide)⟩

end Stmp
